import Mathlib

/-!
Shallow embedding, in Lean 4, of the pure text-processing core of the
Reimbursement_Analyzer repository (files src/helper.py, src/store.py,
src/prompt.py), together with theorems settling the specification claims.

Modelling conventions:
* Python strings are Lean `String` / `List Char`; the regex character
  classes \d, \w, \s are modelled over the ASCII range.
* Python dicts (insertion ordered) are association lists `List (String × String)`.
* The external LLM and vector-store capabilities are oracle parameters;
  fallible external calls are modelled with `Except String`.
* Every definition is written to be executable by the kernel (structural
  recursion only), so concrete witnesses evaluate by `decide` / `rfl`.
-/

/-- Whitespace, as in the Python regex class \s and str.strip (ASCII range). -/
def pyIsWS (c : Char) : Bool :=
  c == ' ' || c == '\t' || c == '\n' || c == '\r' || c == '\x0b' || c == '\x0c'

/-- Word character for the regex word boundary \b (ASCII model of \w). -/
def isWordChar (c : Char) : Bool :=
  c.isAlpha || c.isDigit || c == '_'

/-- Python str.strip on a character list: drop whitespace at both ends. -/
def stripList (l : List Char) : List Char :=
  ((l.dropWhile pyIsWS).reverse.dropWhile pyIsWS).reverse

/-- Python str.strip on a string. -/
def pyStrip (s : String) : String :=
  String.mk (stripList s.data)

/-- Helper for `countTok`: the Nat argument is the number of remaining
characters that belong to an already-counted match and must be skipped. -/
def countTokGo (pat : List Char) : List Char → Nat → Nat
  | [], _ => 0
  | _ :: tl, k + 1 => countTokGo pat tl k
  | c :: tl, 0 =>
    if pat.isPrefixOf (c :: tl) then countTokGo pat tl (pat.length - 1) + 1
    else countTokGo pat tl 0

/-- Python str.count: number of non-overlapping occurrences of a (nonempty)
pattern, scanning left to right. -/
def countTok (pat l : List Char) : Nat :=
  countTokGo pat l 0

/-- Number of positions at which `pat` occurs in `l` as a substring
(occurrences counted even when they overlap).  This is the declarative
"number of occurrences", used to compare with Python str.count. -/
def occCount (pat l : List Char) : Nat :=
  ((List.range (l.length + 1)).filter (fun i => pat.isPrefixOf (l.drop i))).length

/-- Python substring membership test (the `in` operator on str). -/
def containsTok (pat : List Char) : List Char → Bool
  | [] => pat.isEmpty
  | c :: tl => pat.isPrefixOf (c :: tl) || containsTok pat tl

/-- Helper for `substTok`, with the same skip counter as `countTokGo`. -/
def substTokGo (pat repl : List Char) : List Char → Nat → List Char
  | [], _ => []
  | _ :: tl, k + 1 => substTokGo pat repl tl k
  | c :: tl, 0 =>
    if pat.isPrefixOf (c :: tl) then repl ++ substTokGo pat repl tl (pat.length - 1)
    else c :: substTokGo pat repl tl 0

/-- Python str.replace: replace non-overlapping occurrences left to right. -/
def substTok (pat repl l : List Char) : List Char :=
  substTokGo pat repl l 0

/-- Python str.split with separator a single newline character. -/
def splitOnNl : List Char → List (List Char)
  | [] => [[]]
  | c :: tl =>
    if c == '\n' then [] :: splitOnNl tl
    else
      match splitOnNl tl with
      | [] => [[c]]
      | hd :: rest => (c :: hd) :: rest

/-- Python line.split(chr, 1)[1] for chr = colon: everything after the first
colon (empty when there is no colon; the callers only use it on lines that
are known to contain one). -/
def afterColon (l : List Char) : List Char :=
  (l.dropWhile (fun c => !(c == ':'))).drop 1

/-- Case-insensitive prefix test, modelling re.IGNORECASE literal matching. -/
def ciPrefixOf (pat l : List Char) : Bool :=
  (pat.map Char.toLower).isPrefixOf (l.map Char.toLower)

/-- Characters matched by the regex class [:\s]. -/
def isColonWS (c : Char) : Bool :=
  c == ':' || pyIsWS c

/-- Backtracking for the regex fragment `[:\s]+([cls]+)` applied at a fixed
position: the greedy one-or-more colon/whitespace run gives characters back
(from `k` consumed down to 1) until the capture class matches at least one
character.  Returns the captured run. -/
def btCapture (cls : Char → Bool) (l : List Char) : Nat → Option (List Char)
  | 0 => none
  | k + 1 =>
    let cap := (l.drop (k + 1)).takeWhile cls
    if cap.isEmpty then btCapture cls l k else some cap

/-- Model of re.search with a pattern of the shape `LIT[:\s]+([cls]+)` under
re.IGNORECASE: finds the leftmost position where the whole pattern matches
and returns the first capture group.  This covers every such pattern used by
helper.py (Customer Name / Passenger / Name / Status / Reimbursement /
Invoice Type). -/
def litCapture (lit : List Char) (cls : Char → Bool) : List Char → Option (List Char)
  | [] => none
  | c :: tl =>
    if ciPrefixOf lit (c :: tl) then
      match btCapture cls ((c :: tl).drop lit.length)
          ((((c :: tl).drop lit.length).takeWhile isColonWS).length) with
      | some cap => some cap
      | none => litCapture lit cls tl
    else litCapture lit cls tl

/-- Python zfill(2) on a character list. -/
def zfill2 (l : List Char) : List Char :=
  List.replicate (2 - l.length) '0' ++ l

/-- Matcher for the regex fragment `(\d{1,2})/` with Python greedy
backtracking: two digits followed by a slash, else one digit followed by a
slash.  Returns the captured digits and the remainder after the slash. -/
def matchNN : List Char → Option (List Char × List Char)
  | c1 :: c2 :: c3 :: rest =>
    if c1.isDigit && c2.isDigit && c3 == '/' then some ([c1, c2], rest)
    else if c1.isDigit && c2 == '/' then some ([c1], c3 :: rest)
    else none
  | [c1, c2] => if c1.isDigit && c2 == '/' then some ([c1], []) else none
  | _ => none

/-- Matcher for the regex fragment `(\d{4})\b` at the end of the date
pattern: four digits followed by a word boundary. -/
def matchYear : List Char → Option (List Char)
  | y1 :: y2 :: y3 :: y4 :: rest =>
    if y1.isDigit && y2.isDigit && y3.isDigit && y4.isDigit
        && (rest.isEmpty || !(isWordChar (rest.headD ' '))) then
      some [y1, y2, y3, y4]
    else none
  | _ => none

/-- Match of `(\d{1,2})/(\d{1,2})/(\d{4})\b` at the head of the list,
returning the three capture groups. -/
def matchDateAt (l : List Char) : Option (List Char × List Char × List Char) :=
  match matchNN l with
  | none => none
  | some (day, r1) =>
    match matchNN r1 with
    | none => none
    | some (mon, r2) =>
      match matchYear r2 with
      | none => none
      | some yr => some (day, mon, yr)

/-- Leading word boundary \b before a digit: satisfied at the start of the
string or after a non-word character.  `prev` is the preceding character. -/
def boundPrev : Option Char → Bool
  | none => true
  | some c => !(isWordChar c)

/-- Model of re.search with `\b(\d{1,2})/(\d{1,2})/(\d{4})\b`: scan left to
right, attempting the match at each position whose preceding character
satisfies the word boundary. -/
def scanDate (prev : Option Char) : List Char → Option (List Char × List Char × List Char)
  | [] => none
  | c :: rest =>
    if boundPrev prev then
      match matchDateAt (c :: rest) with
      | some g => some g
      | none => scanDate (some c) rest
    else scanDate (some c) rest

/-- Output formatting of extract_date_from_description:
f-string day.zfill(2)/month.zfill(2)/year. -/
def fmtDate (g : List Char × List Char × List Char) : String :=
  String.mk (zfill2 g.1 ++ '/' :: zfill2 g.2.1 ++ '/' :: g.2.2)

namespace Helper

/-- Embedding of extract_date_from_description as defined in src/helper.py
(lines 376-389). -/
def extract_date_from_description (description : String) : Option String :=
  if description = "" then none
  else
    match scanDate none description.data with
    | some g => some (fmtDate g)
    | none => none

end Helper

namespace Store

/-- Embedding of extract_date_from_description as defined in src/store.py
(lines 86-99); the body is the same character-for-character as the helper.py
copy (both call the shared `re` engine with the same pattern). -/
def extract_date_from_description (description : String) : Option String :=
  if description = "" then none
  else
    match scanDate none description.data with
    | some g => some (fmtDate g)
    | none => none

end Store

/-- The literal employee-name label scanned for by get_employee_name. -/
def employeeNameLabel : List Char := "**EMPLOYEE NAME:**".data

/-- Sentinel used by the extraction prompt when no employee name is found. -/
def sentinelName : String := "No information about employee"

/-- Shared label-line cleanup: line.split(colon, 1)[1].strip() followed by
removal of markdown emphasis (replace of double star then of single star by
the empty string) and a final strip. -/
def cleanLabelValue (line : List Char) : String :=
  String.mk (stripList (substTok ['*'] [] (substTok ['*', '*'] [] (stripList (afterColon line)))))

/-- Line scan of get_employee_name: the first line containing the literal
label whose cleaned value is nonempty and different from the sentinel. -/
def scanNameLines : List (List Char) → Option String
  | [] => none
  | line :: rest =>
    if containsTok employeeNameLabel line then
      let name := cleanLabelValue line
      if name != "" && name != sentinelName then some name
      else scanNameLines rest
    else scanNameLines rest

/-- One fallback regex attempt shared by get_employee_name and
get_reimbursement_status: first match of `LIT[:\s]+([cls]+)` (IGNORECASE),
stripped, accepted when nonempty of length greater than 1. -/
def tryFallback (lit : List Char) (cls : Char → Bool) (text : List Char) : Option String :=
  match litCapture lit cls text with
  | some cap =>
    let name := String.mk (stripList cap)
    if name.length > 1 then some name else none
  | none => none

/-- The regex class [A-Za-z\s]. -/
def alphaWS (c : Char) : Bool := c.isAlpha || pyIsWS c

/-- The regex class [A-Za-z\s*]. -/
def alphaWSStar (c : Char) : Bool := c.isAlpha || pyIsWS c || c == '*'

/-- The regex class [A-Za-z/]. -/
def alphaSlash (c : Char) : Bool := c.isAlpha || c == '/'

/-- Embedding of get_employee_name (src/helper.py lines 200-230).  The outer
try/except cannot fire in the pure model: the only fallible operation,
indexing split(colon, 1)[1], is guarded by the label (which contains a
colon) occurring in the line. -/
def get_employee_name (invoice_text : String) : String :=
  match scanNameLines (splitOnNl invoice_text.data) with
  | some n => n
  | none =>
    match tryFallback "Customer Name".data alphaWS invoice_text.data with
    | some n => n
    | none =>
      match tryFallback "Passenger".data alphaWS invoice_text.data with
      | some n => n
      | none =>
        match tryFallback "Name".data alphaWS invoice_text.data with
        | some n => n
        | none => sentinelName

/-- The literal reimbursement-status label. -/
def statusLabel : List Char := "**REIMBURSEMENT STATUS:**".data

/-- Line scan of get_reimbursement_status: first labelled line with a
nonempty cleaned value. -/
def scanStatusLines : List (List Char) → Option String
  | [] => none
  | line :: rest =>
    if containsTok statusLabel line then
      let status := cleanLabelValue line
      if status != "" then some status
      else scanStatusLines rest
    else scanStatusLines rest

/-- Embedding of get_reimbursement_status (src/helper.py lines 232-261). -/
def get_reimbursement_status (invoice_text : String) : String :=
  match scanStatusLines (splitOnNl invoice_text.data) with
  | some s => s
  | none =>
    match tryFallback "Status".data alphaWSStar invoice_text.data with
    | some s => s
    | none =>
      match tryFallback "Reimbursement".data alphaWSStar invoice_text.data with
      | some s => s
      | none => "**Pending Review**"

/-- Regex capture of the invoice type: re.search with
`Invoice Type[:\s]+([A-Za-z/]+)` (IGNORECASE), lowercased, defaulting to
"other" when there is no match (src/helper.py lines 266-268). -/
def capturedInvoiceType (invoice_data : String) : String :=
  match litCapture "Invoice Type".data alphaSlash invoice_data.data with
  | some cap => String.mk (cap.map Char.toLower)
  | none => "other"

/-- Keyword-priority normalization of the captured invoice type
(src/helper.py lines 270-280).  Note that the code spells the accommodation
bucket accomodation. -/
def normalizeCategory (category : String) : String :=
  if containsTok "meal".data category.data || containsTok "food".data category.data then
    "meal"
  else if containsTok "travel".data category.data || containsTok "ticket".data category.data
      || containsTok "flight".data category.data || containsTok "train".data category.data then
    "travel"
  else if containsTok "cab".data category.data || containsTok "taxi".data category.data
      || containsTok "uber".data category.data || containsTok "ola".data category.data then
    "cab"
  else if containsTok "hotel".data category.data || containsTok "house".data category.data
      || containsTok "pg".data category.data || containsTok "hostel".data category.data then
    "accomodation"
  else "other"

/-- Category-specific description prompt for travel (src/helper.py lines 296-302). -/
def travelDescPrompt : String := "Based on the following invoice data, provide a SHORT travel description (max 2 lines):\n\nInclude: Mode of travel, total cost, from which location to where, Date (should strictly match DD/MM/YYYY format), reason of given reimbursement\nFormat: \"Flight from Delhi to Mumbai, total cost ₹5,000, Date is 12/02/22, reason of partially reimbursement is that for traveling cost as per HR Policy we can reimburse only ₹2000 as per 5.2 Travel Expenses\" or \"Train journey from Chennai to Bangalore, total cost ₹800, Date is 12/3/23, since it is within limit as mentioned in HR Reimbursement Policy hence it is fully reimburse as per 5.2 Travel Expenses.\"\n\nInvoice data:\n"

/-- Category-specific description prompt for meal (src/helper.py lines 304-313). -/
def mealDescPrompt : String := "Based on the following invoice data, provide a SHORT meal description (max 2 lines):\n\nInclude: Cuisine/food name, total cost, restaurant name, Date (should strictly match DD/MM/YYYY format), reason of given reimbursement\nFormat: \"North Indian cuisine at Punjabi Dhaba, total cost ₹450, Date is 4/2/25, within HR Policy Budget as per 5.1 Food and Beverages.\" or \"Pizza and beverages at Domino\x27s, total cost ₹600, Date is 23/5/24, it\x27s not with HR Reimbursement policy as given budget by HR is ₹500 but your total cost is ₹600 hence it is partially reimburse as per 5.1 Food and Beverages.\"\n\nInclude: If Cuisine/food include any wine/vodka/cigarette\nFormat: \"Decline!!! as wine doesn\x27t comes under reimbursement Policy as per 5.1 Food and Beverages.\"\n\nInvoice data:\n"

/-- Category-specific description prompt for cab (src/helper.py lines 315-321). -/
def cabDescPrompt : String := "Based on the following invoice data, provide a SHORT cab description (max 2 lines):\n\nInclude: Total cost, pickup and drop location if available, Date (should strictly match DD/MM/YYYY format), reason of given reimbursement\nFormat: \"Cab ride from Airport to Hotel, total cost ₹350, Date of travel is 23/2/21, it\x27s more than HR Reimbursement Policy as per 5.2 Travel Expenses hence partially reimburse\" or \"Uber ride within city, total cost ₹120, Date of travel is 3/01/2002, its within the limit as per 5.2 Travel Expenses hence fully reimburse.\"\n\nInvoice data:\n"

/-- Category-specific description prompt for accomodation (src/helper.py lines 323-329). -/
def accomodationDescPrompt : String := "Based on the following invoice data, provide a SHORT accommodation description (max 2 lines):\n\nInclude: Total cost, hotel name if available, Date (should strictly match DD/MM/YYYY format), reason of given reimbursement\nFormat: \"You stayed in hotel for 2 days, total cost ₹350, Date of travel is 23/2/21, it\x27s more than HR Reimbursement Policy as per 5.3 Accommodation hence partially reimburse\" or \"You stayed in PG, total cost ₹120, Date of travel is 3/01/2002, its within the limit as per 5.3 Accommodation hence fully reimburse.\"\n\nInvoice data:\n"

/-- Fallback description prompt for the other category (src/helper.py lines 331-337). -/
def otherDescPrompt : String := "Based on the following invoice data, provide a SHORT description (max 2 lines):\n\nInclude: Service type, total cost, Date (should strictly match DD/MM/YYYY format), brief details\nFormat: \"Service description with cost\"\n\nInvoice data:\n"

/-- Prompt selection of generate_description_with_llm: travel, meal, cab,
accomodation in that order, else the generic prompt. -/
def promptForCategory (category : String) : String :=
  if category = "travel" then travelDescPrompt
  else if category = "meal" then mealDescPrompt
  else if category = "cab" then cabDescPrompt
  else if category = "accomodation" then accomodationDescPrompt
  else otherDescPrompt

/-- Test for a leading double-quote character (Python startswith). -/
def startsWithQuote : List Char → Bool
  | c :: _ => c == '"'
  | [] => false

/-- Test for a trailing double-quote character (Python endswith). -/
def endsWithQuote (l : List Char) : Bool :=
  match l.getLast? with
  | some c => c == '"'
  | none => false

/-- Response cleanup in generate_description_with_llm: when the stripped
response both starts and ends with a double quote, drop the first and last
characters (Python slice [1:-1]). -/
def stripQuotes (d : String) : String :=
  if startsWithQuote d.data && endsWithQuote d.data then
    String.mk d.data.tail.dropLast
  else d

/-- Embedding of generate_description_with_llm (src/helper.py lines
290-351).  The LLM call is the oracle `llm` applied to the full message
content (prompt concatenated with the invoice data); its failure is caught,
yielding the fixed fallback message carrying the error text. -/
def generate_description_with_llm (llm : String → Except String String)
    (invoice_data category : String) : String :=
  match llm (promptForCategory category ++ invoice_data) with
  | Except.ok response => stripQuotes (pyStrip response)
  | Except.error e => "Invoice total with basic details (Error: " ++ e ++ ")"

/-- Embedding of get_invoice_category_and_description (src/helper.py lines
263-288).  The outer try/except is unreachable in the model: the regex
search is pure and generate_description_with_llm catches its own errors. -/
def get_invoice_category_and_description (llm : String → Except String String)
    (invoice_data : String) : String × String :=
  let category := normalizeCategory (capturedInvoiceType invoice_data)
  (category, generate_description_with_llm llm invoice_data category)

/-- One row of the EmployeeSummary map (src/helper.py lines 367-372). -/
structure SummaryEntry where
  invoice_count : Nat
  invoice_mode : String
  Reimbursement_Status : String
  description : String
deriving Repr, DecidableEq

/-- The literal per-invoice marker counted by get_summary. -/
def invoiceMarker : String := "**INVOICE DETAILS:**"

/-- Summary row computed by get_summary for one employee blob
(src/helper.py lines 359-372).  The total-amount regex sum is computed by
the Python code but never stored in the returned summary, so that dead (with
respect to the result) floating-point computation is not modelled. -/
def summaryEntryFor (llm : String → Except String String) (invoice_data : String) : SummaryEntry :=
  let cd := get_invoice_category_and_description llm invoice_data
  { invoice_count := countTok invoiceMarker.data invoice_data.data
    invoice_mode := cd.1
    Reimbursement_Status := get_reimbursement_status invoice_data
    description := cd.2 }

/-- Embedding of get_summary (src/helper.py lines 353-374) over the
employee_invoice_data association list. -/
def get_summary (llm : String → Except String String)
    (employee_invoice_data : List (String × String)) : List (String × SummaryEntry) :=
  employee_invoice_data.map (fun e => (e.1, summaryEntryFor llm e.2))

/-- The fallible body of extract_invoice_data (src/helper.py lines 143-154),
before the exception handler: direct text extraction, then either the vision
path (when the text is missing or all-whitespace) or the LLM structuring
path.  The three external calls are oracle parameters. -/
def extract_invoice_body (toMarkdown vision : String → Except String String)
    (procLLM : String → Except String String) (pdf_path : String) : Except String String := do
  let text ← toMarkdown pdf_path
  if pyStrip text = "" then vision pdf_path else procLLM text

/-- Embedding of extract_invoice_data (src/helper.py lines 141-157): any
exception in the body yields the empty string. -/
def extract_invoice_data (toMarkdown vision : String → Except String String)
    (procLLM : String → Except String String) (pdf_path : String) : String :=
  match extract_invoice_body toMarkdown vision procLLM pdf_path with
  | Except.ok t => t
  | Except.error _ => ""

/-- Per-employee accumulation of process_invoices (src/helper.py lines
106-109): append to an existing entry with the fixed separator, else insert
a new entry at the end (Python dict insertion order). -/
def addInvoice (st : List (String × String)) (name data : String) : List (String × String) :=
  if st.any (fun e => e.1 == name) then
    st.map (fun e => if e.1 == name then (e.1, e.2 ++ "\n\n---\n\n" ++ data) else e)
  else st ++ [(name, data)]

/-- Loop body of process_invoices for one PDF (src/helper.py lines 99-109):
extract, skip falsy (empty) results, otherwise store under the extracted
employee name. -/
def processPdf (extract : String → String) (st : List (String × String))
    (pdf_path : String) : List (String × String) :=
  let invoice_data := extract pdf_path
  if invoice_data = "" then st
  else addInvoice st (get_employee_name invoice_data) invoice_data

/-- Python dict assignment d[k] = v on the association-list model: replace
the value when the key is present, else insert at the end. -/
def setKey (st : List (String × String)) (k v : String) : List (String × String) :=
  if st.any (fun e => e.1 == k) then
    st.map (fun e => if e.1 == k then (k, v) else e)
  else st ++ [(k, v)]

/-- Python dict lookup d.get(k) on the association-list model. -/
def lookupKey (st : List (String × String)) (k : String) : Option String :=
  (st.find? (fun e => e.1 == k)).map (fun e => e.2)

/-- Keys of the association list are pairwise distinct (always true of a
list that models a Python dict). -/
def keysNodup (st : List (String × String)) : Prop :=
  (st.map Prod.fst).Nodup

/-- Embedding of process_invoices (src/helper.py lines 86-114) on the
employee_invoice_data map.  The archive traversal (ZIP extraction plus PDF
discovery) is the fallible oracle `extractZip`; an exception there is caught
by the outer handler and recorded under the literal key Error.  The loop
itself cannot raise: extract_invoice_data and get_employee_name catch their
own exceptions and dict operations are total. -/
def process_invoices (extractZip : Except String (List String))
    (extract : String → String) (st : List (String × String)) : List (String × String) :=
  match extractZip with
  | Except.ok pdf_files => pdf_files.foldl (processPdf extract) st
  | Except.error e => setKey st "Error" e

/-- Abstract extracted directory listing for extract_zip_and_find_pdfs
(src/helper.py lines 116-139): a directory content is a sequence of entries,
each a PDF file, some other file, a nested ZIP (with its own contents), or a
subdirectory.  File names stand for the full paths the Python code
collects. -/
inductive Listing where
  | nil : Listing
  | pdfFile : String → Listing → Listing
  | otherFile : String → Listing → Listing
  | zipFile : String → Listing → Listing → Listing
  | subdir : String → Listing → Listing → Listing
deriving Repr, DecidableEq

/-- Embedding of the traversal of extract_zip_and_find_pdfs: files ending in
.pdf are collected, nested ZIPs are extracted into a fresh directory and
recursively scanned at the point they are found, other files are skipped,
and subdirectories are scanned by the same os.walk.  (The relative order in
which os.walk interleaves files and subdirectories is platform directory
order; the specification treats the result as unordered.) -/
def findPdfs : Listing → List String
  | Listing.nil => []
  | Listing.pdfFile n rest => n :: findPdfs rest
  | Listing.otherFile _ rest => findPdfs rest
  | Listing.zipFile _ contents rest => findPdfs contents ++ findPdfs rest
  | Listing.subdir _ contents rest => findPdfs contents ++ findPdfs rest

/-- Declarative characterization: the PDF named `p` is transitively
contained in the listing (directly, inside a subdirectory, or inside an
arbitrarily deeply nested ZIP). -/
inductive PdfIn : Listing → String → Prop where
  | here {p rest} : PdfIn (Listing.pdfFile p rest) p
  | thereP {n p rest} : PdfIn rest p → PdfIn (Listing.pdfFile n rest) p
  | thereO {n p rest} : PdfIn rest p → PdfIn (Listing.otherFile n rest) p
  | inZip {n p contents rest} : PdfIn contents p → PdfIn (Listing.zipFile n contents rest) p
  | thereZ {n p contents rest} : PdfIn rest p → PdfIn (Listing.zipFile n contents rest) p
  | inDir {n p contents rest} : PdfIn contents p → PdfIn (Listing.subdir n contents rest) p
  | thereD {n p contents rest} : PdfIn rest p → PdfIn (Listing.subdir n contents rest) p

namespace Store

/-- Retrieved document as returned by the vector store: only its text
content is consumed by answer_query_for_employee. -/
structure RetrievedDoc where
  page_content : String
deriving Repr, DecidableEq

/-- Embedding of get_query_response_prompt (src/prompt.py lines 39-53). -/
def get_query_response_prompt : String := "\nYou are an HR assistant AI. Use the following employee information to answer the user\x27s question.\n\nEmployee Data:\n------------------\n{context}\n\nUser Question:\n------------------\n{question}\n\nGive a concise, helpful, and context-grounded answer.\n"

/-- Simultaneous placeholder substitution of PromptTemplate.format: each
occurrence of the context or question placeholder in the template is
replaced by the corresponding value (substituted text is not rescanned).
The Nat argument skips characters belonging to an already-substituted
placeholder. -/
def fillTemplateGo (context question : String) : List Char → Nat → List Char
  | [], _ => []
  | _ :: tl, k + 1 => fillTemplateGo context question tl k
  | c :: tl, 0 =>
    if "{context}".data.isPrefixOf (c :: tl) then
      context.data ++ fillTemplateGo context question tl ("{context}".length - 1)
    else if "{question}".data.isPrefixOf (c :: tl) then
      question.data ++ fillTemplateGo context question tl ("{question}".length - 1)
    else c :: fillTemplateGo context question tl 0

/-- PromptTemplate.format on the query-response template. -/
def fillTemplate (tmpl context question : String) : String :=
  String.mk (fillTemplateGo context question tmpl.data 0)

/-- Python separator.join on a list of strings. -/
def joinSep (sep : String) : List String → String
  | [] => ""
  | [x] => x
  | x :: xs => x ++ sep ++ joinSep sep xs

/-- Embedding of answer_query_for_employee (src/store.py lines 126-157).
The metadata-filtered similarity search is modelled by its result list
`results` (document plus similarity score, the score of arbitrary type σ
since it is never inspected); the LLM chain is the oracle `llm` applied to
the filled prompt template. -/
def answer_query_for_employee {σ : Type} (llm : String → String)
    (results : List (RetrievedDoc × σ)) (employee_name query : String) : String :=
  if results.isEmpty then "No data found for employee: " ++ employee_name
  else
    let context := joinSep "\n\n" (results.map (fun r => r.1.page_content))
    llm (fillTemplate get_query_response_prompt context query)

end Store

/-- C10: the two copies of extract_date_from_description, the one defined in
helper.py and the one defined in store.py, are extensionally equal: on every
input string (including the empty string) they return the same result. -/
theorem c10_extract_date_copies_agree (s : String) :
    Helper.extract_date_from_description s = Store.extract_date_from_description s := rfl

/-- C7: answer_query_for_employee returns the literal not-found message when
the metadata-filtered similarity search returned no documents; otherwise the
answer is the LLM response on the prompt template filled with the retrieved
documents page contents joined by blank-line separators in store order; and,
for any LLM that never itself emits the literal message, the literal message
is returned exactly when the result set is empty. -/
theorem c7_answer_query_characterization {σ : Type} (llm : String → String)
    (results : List (Store.RetrievedDoc × σ)) (employee_name query : String) :
    (results = [] →
      Store.answer_query_for_employee llm results employee_name query =
        "No data found for employee: " ++ employee_name)
    ∧ (results ≠ [] →
      Store.answer_query_for_employee llm results employee_name query =
        llm (Store.fillTemplate Store.get_query_response_prompt
          (Store.joinSep "\n\n" (results.map (fun r => r.1.page_content))) query))
    ∧ ((∀ p, llm p ≠ "No data found for employee: " ++ employee_name) →
      (Store.answer_query_for_employee llm results employee_name query =
          "No data found for employee: " ++ employee_name ↔ results = [])) := by
  refine ⟨fun h => ?_, fun h => ?_, fun h => ?_⟩
  · subst h; rfl
  · cases results with
    | nil => exact absurd rfl h
    | cons r rs => rfl
  · constructor
    · intro hEq
      cases results with
      | nil => rfl
      | cons r rs => exact absurd hEq (h _)
    · intro h2; subst h2; rfl

/-- Witness for C7 at concrete inputs: empty search result, nonempty search
result, and the exactly-when direction for an LLM that echoes a marker. -/
theorem c7_answer_query_characterization_witness :
    Store.answer_query_for_employee (σ := Nat) (fun _ => "x") [] "Ann" "q" =
      "No data found for employee: Ann"
    ∧ Store.answer_query_for_employee (σ := Nat) (fun _ => "x")
        [(⟨"DOC"⟩, (0 : Nat))] "Ann" "q" = "x"
    ∧ (Store.answer_query_for_employee (σ := Nat) (fun _ => "x")
        [(⟨"DOC"⟩, (0 : Nat))] "Ann" "q" = "No data found for employee: Ann" ↔
        ([(⟨"DOC"⟩, (0 : Nat))] : List (Store.RetrievedDoc × Nat)) = []) :=
  ⟨(c7_answer_query_characterization (σ := Nat) (fun _ => "x") [] "Ann" "q").1 rfl,
   (c7_answer_query_characterization (σ := Nat) (fun _ => "x")
      [(⟨"DOC"⟩, (0 : Nat))] "Ann" "q").2.1 (by simp),
   (c7_answer_query_characterization (σ := Nat) (fun _ => "x")
      [(⟨"DOC"⟩, (0 : Nat))] "Ann" "q").2.2 (fun p => by decide)⟩

/-- C8: when the extraction body raises, extract_invoice_data returns the
empty string, and process_invoices leaves the state untouched for a PDF
whose extraction result is empty: processing a PDF list containing such a
PDF gives exactly the state obtained by processing the list without it, so
all other entries are unaffected. -/
theorem c8_failed_extraction_dropped
    (toMarkdown vision procLLM : String → Except String String)
    (pdf_path err : String)
    (hfail : extract_invoice_body toMarkdown vision procLLM pdf_path = Except.error err) :
    extract_invoice_data toMarkdown vision procLLM pdf_path = ""
    ∧ ∀ (extract : String → String) (st : List (String × String))
        (pre post : List String) (p : String), extract p = "" →
        process_invoices (Except.ok (pre ++ p :: post)) extract st =
          process_invoices (Except.ok (pre ++ post)) extract st := by
  constructor
  · unfold extract_invoice_data
    rw [hfail]
  · intro extract st pre post p hp
    simp only [process_invoices, List.foldl_append, List.foldl_cons]
    have hstep : ∀ st' : List (String × String), processPdf extract st' p = st' := by
      intro st'
      simp [processPdf, hp]
    rw [hstep]

/-- Witness for C8 at concrete oracles: a raising PDF reader and a PDF whose
extraction is empty. -/
theorem c8_failed_extraction_dropped_witness :
    extract_invoice_data (fun _ => Except.error "io") (fun _ => Except.ok "v")
        (fun _ => Except.ok "t") "f.pdf" = ""
    ∧ process_invoices (Except.ok (["a.pdf"] ++ "bad.pdf" :: [])) (fun _ => "") [] =
        process_invoices (Except.ok (["a.pdf"] ++ [])) (fun _ => "") [] :=
  ⟨(c8_failed_extraction_dropped (fun _ => Except.error "io") (fun _ => Except.ok "v")
      (fun _ => Except.ok "t") "f.pdf" "io" rfl).1,
   (c8_failed_extraction_dropped (fun _ => Except.error "io") (fun _ => Except.ok "v")
      (fun _ => Except.ok "t") "f.pdf" "io" rfl).2
      (fun _ => "") [] ["a.pdf"] [] "bad.pdf" rfl⟩

/-- A path is in the traversal result exactly when it is a transitively
contained PDF of the listing. -/
theorem mem_findPdfs_iff (l : Listing) (p : String) :
    p ∈ findPdfs l ↔ PdfIn l p := by
  induction l with
  | nil =>
    simp only [findPdfs, List.not_mem_nil, false_iff]
    intro h; cases h
  | pdfFile n rest ih =>
    simp only [findPdfs, List.mem_cons, ih]
    constructor
    · rintro (rfl | h)
      · exact PdfIn.here
      · exact PdfIn.thereP h
    · intro h
      cases h with
      | here => exact Or.inl rfl
      | thereP h => exact Or.inr h
  | otherFile n rest ih =>
    simp only [findPdfs, ih]
    constructor
    · exact fun h => PdfIn.thereO h
    · intro h; cases h with
      | thereO h => exact h
  | zipFile n contents rest ihc ihr =>
    simp only [findPdfs, List.mem_append, ihc, ihr]
    constructor
    · rintro (h | h)
      · exact PdfIn.inZip h
      · exact PdfIn.thereZ h
    · intro h
      cases h with
      | inZip h => exact Or.inl h
      | thereZ h => exact Or.inr h
  | subdir n contents rest ihc ihr =>
    simp only [findPdfs, List.mem_append, ihc, ihr]
    constructor
    · rintro (h | h)
      · exact PdfIn.inDir h
      · exact PdfIn.thereD h
    · intro h
      cases h with
      | inDir h => exact Or.inl h
      | thereD h => exact Or.inr h

/-- C6: for a bundle with one top-level PDF and one nested archive that
itself contains two PDFs, the traversal terminates (it is a total function)
and returns exactly the three transitively contained PDF paths, with no
duplicates. -/
theorem c6_nested_bundle_three_pdfs (a z b c : String)
    (hab : a ≠ b) (hac : a ≠ c) (hbc : b ≠ c) :
    findPdfs (Listing.pdfFile a (Listing.zipFile z
        (Listing.pdfFile b (Listing.pdfFile c Listing.nil)) Listing.nil)) = [a, b, c]
    ∧ (findPdfs (Listing.pdfFile a (Listing.zipFile z
        (Listing.pdfFile b (Listing.pdfFile c Listing.nil)) Listing.nil))).length = 3
    ∧ (findPdfs (Listing.pdfFile a (Listing.zipFile z
        (Listing.pdfFile b (Listing.pdfFile c Listing.nil)) Listing.nil))).Nodup
    ∧ ∀ p, PdfIn (Listing.pdfFile a (Listing.zipFile z
        (Listing.pdfFile b (Listing.pdfFile c Listing.nil)) Listing.nil)) p →
        p ∈ findPdfs (Listing.pdfFile a (Listing.zipFile z
          (Listing.pdfFile b (Listing.pdfFile c Listing.nil)) Listing.nil)) := by
  refine ⟨rfl, rfl, ?_, ?_⟩
  · simp [findPdfs, hab, hac, hbc]
  · intro p h
    exact (mem_findPdfs_iff _ p).mpr h

/-- Witness for C6 at concrete distinct paths. -/
theorem c6_nested_bundle_three_pdfs_witness :
    findPdfs (Listing.pdfFile "t/a.pdf" (Listing.zipFile "t/n.zip"
        (Listing.pdfFile "t/nested_n/b.pdf" (Listing.pdfFile "t/nested_n/c.pdf" Listing.nil))
        Listing.nil)) = ["t/a.pdf", "t/nested_n/b.pdf", "t/nested_n/c.pdf"]
    ∧ (findPdfs (Listing.pdfFile "t/a.pdf" (Listing.zipFile "t/n.zip"
        (Listing.pdfFile "t/nested_n/b.pdf" (Listing.pdfFile "t/nested_n/c.pdf" Listing.nil))
        Listing.nil))).Nodup :=
  ⟨(c6_nested_bundle_three_pdfs "t/a.pdf" "t/n.zip" "t/nested_n/b.pdf" "t/nested_n/c.pdf"
      (by decide) (by decide) (by decide)).1,
   (c6_nested_bundle_three_pdfs "t/a.pdf" "t/n.zip" "t/nested_n/b.pdf" "t/nested_n/c.pdf"
      (by decide) (by decide) (by decide)).2.2.1⟩

/-- Appending a fresh key at the end makes it findable when it was absent. -/
theorem find?_key_append_single (st : List (String × String)) (k v : String)
    (h : st.any (fun e => e.1 == k) = false) :
    (st ++ [(k, v)]).find? (fun e => e.1 == k) = some (k, v) := by
  induction st with
  | nil => simp [List.find?]
  | cons hd tl ih =>
    simp only [List.any_cons, Bool.or_eq_false_iff] at h
    simp [List.find?, h.1, ih h.2]

/-- Replacing the value at a present key makes the replacement findable. -/
theorem find?_key_map_replace_self (st : List (String × String)) (k v : String)
    (h : st.any (fun e => e.1 == k) = true) :
    (st.map (fun e => if e.1 == k then (k, v) else e)).find? (fun e => e.1 == k) =
      some (k, v) := by
  induction st with
  | nil => simp at h
  | cons hd tl ih =>
    simp only [List.map_cons]
    cases hk : (hd.1 == k) with
    | true =>
      rw [if_pos rfl]
      exact List.find?_cons_of_pos _ (by simp)
    | false =>
      rw [if_neg (by simp)]
      rw [List.find?_cons_of_neg _ (by simp [hk])]
      simp only [List.any_cons, hk, Bool.false_or] at h
      exact ih h

/-- Replacing the value at one key leaves lookups of any other key alone. -/
theorem find?_key_map_replace_other (st : List (String × String)) (k v q : String)
    (hq : q ≠ k) :
    (st.map (fun e => if e.1 == k then (k, v) else e)).find? (fun e => e.1 == q) =
      st.find? (fun e => e.1 == q) := by
  induction st with
  | nil => simp
  | cons hd tl ih =>
    simp only [List.map_cons]
    cases hk : (hd.1 == k) with
    | true =>
      have h1 : hd.1 = k := by simpa using hk
      have l1 : List.find? (fun e => e.1 == q)
          ((k, v) :: tl.map (fun e => if e.1 == k then (k, v) else e)) =
          List.find? (fun e => e.1 == q) (tl.map (fun e => if e.1 == k then (k, v) else e)) :=
        List.find?_cons_of_neg _ (by simp [Ne.symm hq])
      have l2 : List.find? (fun e => e.1 == q) (hd :: tl) =
          List.find? (fun e => e.1 == q) tl :=
        List.find?_cons_of_neg _ (by simp [h1, Ne.symm hq])
      rw [if_pos rfl, l1, l2]
      exact ih
    | false =>
      rw [if_neg (by simp)]
      cases hp : (hd.1 == q) with
      | true =>
        have l1 : List.find? (fun e => e.1 == q)
            (hd :: tl.map (fun e => if e.1 == k then (k, v) else e)) = some hd :=
          List.find?_cons_of_pos _ hp
        have l2 : List.find? (fun e => e.1 == q) (hd :: tl) = some hd :=
          List.find?_cons_of_pos _ hp
        rw [l1, l2]
      | false =>
        have l1 : List.find? (fun e => e.1 == q)
            (hd :: tl.map (fun e => if e.1 == k then (k, v) else e)) =
            List.find? (fun e => e.1 == q) (tl.map (fun e => if e.1 == k then (k, v) else e)) :=
          List.find?_cons_of_neg _ (by simp [hp])
        have l2 : List.find? (fun e => e.1 == q) (hd :: tl) =
            List.find? (fun e => e.1 == q) tl :=
          List.find?_cons_of_neg _ (by simp [hp])
        rw [l1, l2]
        exact ih

/-- Appending an entry under one key leaves lookups of other keys alone. -/
theorem find?_key_append_single_other (st : List (String × String)) (k v q : String)
    (hq : q ≠ k) :
    (st ++ [(k, v)]).find? (fun e => e.1 == q) = st.find? (fun e => e.1 == q) := by
  have h2 : (k == q) = false := by simp [Ne.symm hq]
  induction st with
  | nil => simp [List.find?, h2]
  | cons hd tl ih =>
    cases hp : (hd.1 == q) with
    | true => simp [List.find?, hp]
    | false => simp [List.find?, hp, ih]

/-- Value replacement does not change the key sequence. -/
theorem keys_map_replace (st : List (String × String)) (k v : String) :
    (st.map (fun e => if e.1 == k then (k, v) else e)).map Prod.fst =
      st.map Prod.fst := by
  induction st with
  | nil => rfl
  | cons hd tl ih =>
    simp only [List.map_cons, ih]
    cases hk : (hd.1 == k) with
    | true =>
      have h1 : hd.1 = k := by simpa using hk
      rw [if_pos rfl]
      simp [h1]
    | false => rw [if_neg (by simp)]

/-- Dict assignment preserves distinctness of keys. -/
theorem keysNodup_setKey (st : List (String × String)) (k v : String)
    (h : keysNodup st) : keysNodup (setKey st k v) := by
  unfold setKey
  cases ha : st.any (fun e => e.1 == k) with
  | true =>
    unfold keysNodup
    rw [if_pos rfl, keys_map_replace]
    exact h
  | false =>
    rw [if_neg (by simp)]
    unfold keysNodup at h ⊢
    have hk : k ∉ st.map Prod.fst := by
      intro hmem
      obtain ⟨e, he, hfst⟩ := List.mem_map.mp hmem
      have : st.any (fun e => e.1 == k) = true :=
        List.any_eq_true.mpr ⟨e, he, by simp [hfst]⟩
      rw [ha] at this
      cases this
    simp [List.nodup_append, h, hk]

/-- C9: an infrastructure failure in process_invoices (the archive traversal
raising) is caught and recorded as an error entry under the literal key
Error holding the exception text; the function returns normally, every other
entry of the map is preserved, and (keys being distinct, as in a Python
dict) the resulting map still has distinct keys, so the Error entry is a
single entry. -/
theorem c9_process_invoices_error_entry (extract : String → String)
    (st : List (String × String)) (e : String) (hnd : keysNodup st) :
    process_invoices (Except.error e) extract st = setKey st "Error" e
    ∧ lookupKey (process_invoices (Except.error e) extract st) "Error" = some e
    ∧ (∀ k, k ≠ "Error" →
        lookupKey (process_invoices (Except.error e) extract st) k = lookupKey st k)
    ∧ keysNodup (process_invoices (Except.error e) extract st) := by
  refine ⟨rfl, ?_, ?_, ?_⟩
  · show lookupKey (setKey st "Error" e) "Error" = some e
    unfold setKey
    cases ha : st.any (fun p => p.1 == "Error") with
    | true =>
      rw [if_pos rfl]
      unfold lookupKey
      rw [find?_key_map_replace_self st "Error" e ha]
      rfl
    | false =>
      rw [if_neg (by simp)]
      unfold lookupKey
      rw [find?_key_append_single st "Error" e ha]
      rfl
  · intro k hk
    show lookupKey (setKey st "Error" e) k = lookupKey st k
    unfold setKey
    cases ha : st.any (fun p => p.1 == "Error") with
    | true =>
      rw [if_pos rfl]
      unfold lookupKey
      rw [find?_key_map_replace_other st "Error" e k hk]
    | false =>
      rw [if_neg (by simp)]
      unfold lookupKey
      rw [find?_key_append_single_other st "Error" e k hk]
  · exact keysNodup_setKey st "Error" e hnd

/-- Witness for C9 at a concrete prior state and exception text. -/
theorem c9_process_invoices_error_entry_witness :
    keysNodup [("A", "x")]
    ∧ (process_invoices (Except.error "boom") (fun _ => "") [("A", "x")] =
        setKey [("A", "x")] "Error" "boom"
      ∧ lookupKey (process_invoices (Except.error "boom") (fun _ => "") [("A", "x")]) "Error" =
          some "boom"
      ∧ (∀ k, k ≠ "Error" →
          lookupKey (process_invoices (Except.error "boom") (fun _ => "") [("A", "x")]) k =
            lookupKey [("A", "x")] k)
      ∧ keysNodup (process_invoices (Except.error "boom") (fun _ => "") [("A", "x")])) :=
  ⟨by simp [keysNodup],
   c9_process_invoices_error_entry (fun _ => "") [("A", "x")] "boom" (by simp [keysNodup])⟩

/-- Keyword test of the meal bucket (src/helper.py line 271). -/
def mealKw (c : String) : Bool :=
  containsTok "meal".data c.data || containsTok "food".data c.data

/-- Keyword test of the travel bucket (src/helper.py line 273). -/
def travelKw (c : String) : Bool :=
  containsTok "travel".data c.data || containsTok "ticket".data c.data
    || containsTok "flight".data c.data || containsTok "train".data c.data

/-- Keyword test of the cab bucket (src/helper.py line 275). -/
def cabKw (c : String) : Bool :=
  containsTok "cab".data c.data || containsTok "taxi".data c.data
    || containsTok "uber".data c.data || containsTok "ola".data c.data

/-- Keyword test of the accomodation bucket (src/helper.py line 277). -/
def accomKw (c : String) : Bool :=
  containsTok "hotel".data c.data || containsTok "house".data c.data
    || containsTok "pg".data c.data || containsTok "hostel".data c.data

/-- The normalization chain written with the named keyword tests. -/
theorem normalizeCategory_eq (c : String) :
    normalizeCategory c =
      if mealKw c then "meal"
      else if travelKw c then "travel"
      else if cabKw c then "cab"
      else if accomKw c then "accomodation"
      else "other" := rfl

/-- The normalization always lands in the five-element bucket set. -/
theorem normalizeCategory_mem (c : String) :
    normalizeCategory c ∈ ["meal", "travel", "cab", "accomodation", "other"] := by
  unfold normalizeCategory
  split_ifs <;> simp

/-- C2 counterexample: on the record Invoice Type: hotel the code returns
the category string accomodation, which is not an element of the set
claimed by the specification, {meal, travel, cab, accommodation, other}. -/
theorem c2_counterexample_accomodation_spelling :
    (get_invoice_category_and_description (fun _ => Except.ok "") "Invoice Type: hotel").1 =
      "accomodation"
    ∧ "accomodation" ∉ ["meal", "travel", "cab", "accommodation", "other"] :=
  ⟨by decide, by decide⟩

/-- C2 (amended): the category returned by
get_invoice_category_and_description is always one of the five literal
strings the code uses — meal, travel, cab, accomodation (the code spelling),
other — namely the keyword normalization of the regex-captured lowercased
invoice type, and the keyword buckets are decided deterministically in the
fixed priority order meal, travel, cab, accomodation, other. -/
theorem c2_category_total_and_priority (llm : String → Except String String)
    (invoice_data : String) :
    (get_invoice_category_and_description llm invoice_data).1 ∈
        ["meal", "travel", "cab", "accomodation", "other"]
    ∧ (get_invoice_category_and_description llm invoice_data).1 =
        normalizeCategory (capturedInvoiceType invoice_data)
    ∧ ∀ ctype : String,
        (mealKw ctype = true → normalizeCategory ctype = "meal")
        ∧ (mealKw ctype = false → travelKw ctype = true → normalizeCategory ctype = "travel")
        ∧ (mealKw ctype = false → travelKw ctype = false → cabKw ctype = true →
            normalizeCategory ctype = "cab")
        ∧ (mealKw ctype = false → travelKw ctype = false → cabKw ctype = false →
            accomKw ctype = true → normalizeCategory ctype = "accomodation")
        ∧ (mealKw ctype = false → travelKw ctype = false → cabKw ctype = false →
            accomKw ctype = false → normalizeCategory ctype = "other") := by
  refine ⟨normalizeCategory_mem _, rfl, ?_⟩
  intro ctype
  refine ⟨fun h1 => ?_, fun h1 h2 => ?_, fun h1 h2 h3 => ?_, fun h1 h2 h3 h4 => ?_,
    fun h1 h2 h3 h4 => ?_⟩
  all_goals rw [normalizeCategory_eq]
  · rw [if_pos h1]
  · rw [if_neg (by simp [h1]), if_pos h2]
  · rw [if_neg (by simp [h1]), if_neg (by simp [h2]), if_pos h3]
  · rw [if_neg (by simp [h1]), if_neg (by simp [h2]), if_neg (by simp [h3]), if_pos h4]
  · rw [if_neg (by simp [h1]), if_neg (by simp [h2]), if_neg (by simp [h3]),
      if_neg (by simp [h4])]

/-- Witness for C2 at a concrete record whose invoice type carries both a
meal and a travel keyword: the meal bucket wins. -/
theorem c2_category_total_and_priority_witness :
    (get_invoice_category_and_description (fun _ => Except.ok "")
        "- Invoice Type: Meal/Flight").1 ∈
      ["meal", "travel", "cab", "accomodation", "other"]
    ∧ normalizeCategory "meal/flight" = "meal" :=
  ⟨(c2_category_total_and_priority (fun _ => Except.ok "") "- Invoice Type: Meal/Flight").1,
   ((c2_category_total_and_priority (fun _ => Except.ok "") "- Invoice Type: Meal/Flight").2.2
      "meal/flight").1 (by decide)⟩

/-- C3 counterexample: on a record whose label line carries the sentinel
value and which also contains a Customer Name field, get_employee_name runs
the fallback regexes and returns the fallback name instead of the literal
sentinel, so the sentinel is not returned unchanged and the fallback
patterns are triggered. -/
theorem c3_counterexample_fallback_after_sentinel :
    get_employee_name
        "**EMPLOYEE NAME:** No information about employee\nCustomer Name: Alice" = "Alice"
    ∧ ("Alice" : String) ≠ "No information about employee" :=
  ⟨by decide, by decide⟩

/-- C3 (amended): a record whose label line carries a value other than the
sentinel yields that value with markdown emphasis stripped (the John Doe
record returns John Doe); when every label line carries the sentinel the
primary scan yields nothing and the fallback regexes are consulted, and only
when they all fail is the sentinel returned — in particular the record
consisting of the single sentinel-valued label line does return the
sentinel. -/
theorem c3_employee_name_label_and_sentinel :
    get_employee_name "**EMPLOYEE NAME:** **John Doe**" = "John Doe"
    ∧ get_employee_name "**EMPLOYEE NAME:** No information about employee" =
        "No information about employee"
    ∧ scanNameLines (splitOnNl "**EMPLOYEE NAME:** No information about employee".data) = none
    ∧ (∀ s n, scanNameLines (splitOnNl s.data) = none →
        tryFallback "Customer Name".data alphaWS s.data = some n →
        get_employee_name s = n)
    ∧ (∀ s, scanNameLines (splitOnNl s.data) = none →
        tryFallback "Customer Name".data alphaWS s.data = none →
        tryFallback "Passenger".data alphaWS s.data = none →
        tryFallback "Name".data alphaWS s.data = none →
        get_employee_name s = sentinelName) := by
  refine ⟨by decide, by decide, by decide, ?_, ?_⟩
  · intro s n h1 h2
    unfold get_employee_name
    rw [h1, h2]
  · intro s h1 h2 h3 h4
    unfold get_employee_name
    rw [h1, h2, h3, h4]

/-- Witness for C3 at a record that reaches the Customer Name fallback. -/
theorem c3_employee_name_label_and_sentinel_witness :
    scanNameLines (splitOnNl "Customer Name: Carol".data) = none
    ∧ tryFallback "Customer Name".data alphaWS "Customer Name: Carol".data = some "Carol"
    ∧ get_employee_name "Customer Name: Carol" = "Carol" :=
  ⟨by decide, by decide,
   c3_employee_name_label_and_sentinel.2.2.2.1 "Customer Name: Carol" "Carol"
      (by decide) (by decide)⟩

/-- Text in which the invoice marker occurs at two overlapping positions
(0 and 18): Python str.count sees only the first. -/
def overlapBlob : String := "**INVOICE DETAILS:**INVOICE DETAILS:**"

/-- C1 counterexample: on the overlap blob the number of occurrences of the
marker in the stored text is 2 while get_summary reports invoice_count 1,
so invoice_count is not the number of occurrences of the marker. -/
theorem c1_counterexample_overlapping_marker :
    (get_summary (fun _ => Except.ok "") [("E", overlapBlob)]).map
        (fun e => (e.1, e.2.invoice_count)) = [("E", 1)]
    ∧ occCount invoiceMarker.data overlapBlob.data = 2 :=
  ⟨by decide, by decide⟩

/-- C1 (amended): every employee entry produced by get_summary carries
invoice_count equal to the number of non-overlapping occurrences (Python
str.count, scanning left to right) of the literal marker in that employee's
stored concatenated invoice text. -/
theorem c1_invoice_count_is_nonoverlapping_count (llm : String → Except String String)
    (st : List (String × String)) (n t : String) (hmem : (n, t) ∈ st) :
    (n, summaryEntryFor llm t) ∈ get_summary llm st
    ∧ (summaryEntryFor llm t).invoice_count = countTok invoiceMarker.data t.data := by
  constructor
  · unfold get_summary
    exact List.mem_map.mpr ⟨(n, t), hmem, rfl⟩
  · rfl

/-- Witness for C1 at a one-employee state with one marker occurrence. -/
theorem c1_invoice_count_is_nonoverlapping_count_witness :
    (("A", summaryEntryFor (fun _ => Except.ok "") "**INVOICE DETAILS:** x") ∈
        get_summary (fun _ => Except.ok "") [("A", "**INVOICE DETAILS:** x")])
    ∧ (summaryEntryFor (fun _ => Except.ok "") "**INVOICE DETAILS:** x").invoice_count =
        countTok invoiceMarker.data "**INVOICE DETAILS:** x".data
    ∧ countTok invoiceMarker.data "**INVOICE DETAILS:** x".data = 1 :=
  ⟨(c1_invoice_count_is_nonoverlapping_count (fun _ => Except.ok "")
      [("A", "**INVOICE DETAILS:** x")] "A" "**INVOICE DETAILS:** x" (by simp)).1,
   (c1_invoice_count_is_nonoverlapping_count (fun _ => Except.ok "")
      [("A", "**INVOICE DETAILS:** x")] "A" "**INVOICE DETAILS:** x" (by simp)).2,
   by decide⟩

/-- Date match of the whole pattern at position i, where prev is the
character preceding the list (none at the start of the string): the leading
word boundary is checked against the character at position i - 1. -/
def dateMatchIdxP (prev : Option Char) (l : List Char) (i : Nat) :
    Option (List Char × List Char × List Char) :=
  match i with
  | 0 => if boundPrev prev then matchDateAt l else none
  | j + 1 =>
    match l.get? j with
    | some c => if boundPrev (some c) then matchDateAt (l.drop (j + 1)) else none
    | none => none

/-- Declarative pattern match at position i of the string. -/
def dateMatchIdx (l : List Char) (i : Nat) : Option (List Char × List Char × List Char) :=
  dateMatchIdxP none l i

/-- On the empty list no position matches. -/
theorem dateMatchIdxP_nil (prev : Option Char) (i : Nat) :
    dateMatchIdxP prev [] i = none := by
  cases i with
  | zero => cases hb : boundPrev prev <;> simp [dateMatchIdxP, hb, matchDateAt, matchNN]
  | succ j => rfl

/-- Shifting one character off the list shifts match positions by one. -/
theorem dateMatchIdxP_cons (prev : Option Char) (c : Char) (rest : List Char) (j : Nat) :
    dateMatchIdxP prev (c :: rest) (j + 1) = dateMatchIdxP (some c) rest j := by
  cases j with
  | zero => rfl
  | succ k => rfl

/-- Soundness of the scan against the first matching position: if the
pattern matches at position i and at no earlier position, the scan returns
that match. -/
theorem scanDate_first_some :
    ∀ (l : List Char) (prev : Option Char) (i : Nat)
      (g : List Char × List Char × List Char),
      dateMatchIdxP prev l i = some g →
      (∀ j, j < i → dateMatchIdxP prev l j = none) →
      scanDate prev l = some g := by
  intro l
  induction l with
  | nil =>
    intro prev i g hi _
    rw [dateMatchIdxP_nil] at hi
    cases hi
  | cons c rest ih =>
    intro prev i g hi hmin
    cases hb : boundPrev prev with
    | true =>
      cases hm : matchDateAt (c :: rest) with
      | some g0 =>
        cases i with
        | zero =>
          simp only [dateMatchIdxP, hb, if_true] at hi
          rw [hm] at hi
          simp only [Option.some.injEq] at hi
          simp [scanDate, hb, hm, hi]
        | succ j =>
          have h0 := hmin 0 (Nat.succ_pos j)
          simp only [dateMatchIdxP, hb, if_true] at h0
          rw [hm] at h0
          cases h0
      | none =>
        cases i with
        | zero =>
          simp only [dateMatchIdxP, hb, if_true] at hi
          rw [hm] at hi
          cases hi
        | succ j =>
          rw [dateMatchIdxP_cons] at hi
          have hmin2 : ∀ j2, j2 < j → dateMatchIdxP (some c) rest j2 = none := by
            intro j2 hj2
            have h := hmin (j2 + 1) (Nat.succ_lt_succ hj2)
            rwa [dateMatchIdxP_cons] at h
          simp only [scanDate, hb, if_true]
          rw [hm]
          exact ih (some c) j g hi hmin2
    | false =>
      cases i with
      | zero =>
        simp [dateMatchIdxP, hb] at hi
      | succ j =>
        rw [dateMatchIdxP_cons] at hi
        have hmin2 : ∀ j2, j2 < j → dateMatchIdxP (some c) rest j2 = none := by
          intro j2 hj2
          have h := hmin (j2 + 1) (Nat.succ_lt_succ hj2)
          rwa [dateMatchIdxP_cons] at h
        simp only [scanDate, hb]
        exact ih (some c) j g hi hmin2

/-- Completeness: when no position up to the length of the list matches,
the scan returns none. -/
theorem scanDate_none_of_forall :
    ∀ (l : List Char) (prev : Option Char),
      (∀ i, i ≤ l.length → dateMatchIdxP prev l i = none) →
      scanDate prev l = none := by
  intro l
  induction l with
  | nil => intro prev _; rfl
  | cons c rest ih =>
    intro prev h
    have h0 := h 0 (Nat.zero_le _)
    have hrest : ∀ i, i ≤ rest.length → dateMatchIdxP (some c) rest i = none := by
      intro i hi
      have hr := h (i + 1) (Nat.succ_le_succ hi)
      rwa [dateMatchIdxP_cons] at hr
    cases hb : boundPrev prev with
    | true =>
      simp only [dateMatchIdxP, hb, if_true] at h0
      simp only [scanDate, hb, if_true]
      rw [h0]
      exact ih (some c) hrest
    | false =>
      simp only [scanDate, hb]
      exact ih (some c) hrest

/-- C4: extract_date_from_description returns the zero-padded formatting of
the day/month/year capture groups of the first position at which the
boundary-anchored date pattern matches, and returns none when no position
matches; it is a total function, so it never raises. -/
theorem c4_extract_date_first_match (s : String) :
    (∀ i g, dateMatchIdx s.data i = some g →
      (∀ j, j < i → dateMatchIdx s.data j = none) →
      Helper.extract_date_from_description s = some (fmtDate g))
    ∧ ((∀ i, i ≤ s.data.length → dateMatchIdx s.data i = none) →
      Helper.extract_date_from_description s = none) := by
  constructor
  · intro i g hi hmin
    have hs : s ≠ "" := by
      intro hEq
      subst hEq
      have hnil : dateMatchIdx (String.data "") i = none := dateMatchIdxP_nil none i
      exact Option.noConfusion (hnil ▸ hi)
    unfold Helper.extract_date_from_description
    rw [if_neg hs, scanDate_first_some s.data none i g hi hmin]
  · intro h
    by_cases hs : s = ""
    · simp [Helper.extract_date_from_description, hs]
    · unfold Helper.extract_date_from_description
      rw [if_neg hs, scanDate_none_of_forall s.data none h]

/-- Witness for C4: a first match at position 3 with zero-padded output, and
an input with no match. -/
theorem c4_extract_date_first_match_witness :
    dateMatchIdx "on 3/1/2024 x".data 3 = some (['3'], ['1'], ['2', '0', '2', '4'])
    ∧ fmtDate (['3'], ['1'], ['2', '0', '2', '4']) = "03/01/2024"
    ∧ Helper.extract_date_from_description "on 3/1/2024 x" =
        some (fmtDate (['3'], ['1'], ['2', '0', '2', '4']))
    ∧ Helper.extract_date_from_description "no date here" = none :=
  ⟨by decide, by decide,
   (c4_extract_date_first_match "on 3/1/2024 x").1 3 (['3'], ['1'], ['2', '0', '2', '4'])
      (by decide) (by decide),
   (c4_extract_date_first_match "no date here").2 (by decide)⟩

/-- The day/month capture group is one or two digit characters. -/
theorem matchNN_shape {l d r : List Char} (h : matchNN l = some (d, r)) :
    (∃ a, d = [a] ∧ a.isDigit = true) ∨
      (∃ a b, d = [a, b] ∧ a.isDigit = true ∧ b.isDigit = true) := by
  rcases l with _ | ⟨c1, _ | ⟨c2, _ | ⟨c3, rest⟩⟩⟩
  · simp [matchNN] at h
  · simp [matchNN] at h
  · simp only [matchNN] at h
    split_ifs at h with hc
    · simp only [Option.some.injEq, Prod.mk.injEq] at h
      obtain ⟨h1, h2⟩ := h
      subst h1
      simp only [Bool.and_eq_true] at hc
      exact Or.inl ⟨c1, rfl, hc.1⟩
  · simp only [matchNN] at h
    split_ifs at h with h1 h2
    · simp only [Option.some.injEq, Prod.mk.injEq] at h
      obtain ⟨hd, hr⟩ := h
      subst hd
      simp only [Bool.and_eq_true] at h1
      exact Or.inr ⟨c1, c2, rfl, h1.1.1, h1.1.2⟩
    · simp only [Option.some.injEq, Prod.mk.injEq] at h
      obtain ⟨hd, hr⟩ := h
      subst hd
      simp only [Bool.and_eq_true] at h2
      exact Or.inl ⟨c1, rfl, h2.1⟩

/-- The year capture group is exactly four digit characters. -/
theorem matchYear_shape {l y : List Char} (h : matchYear l = some y) :
    ∃ a b c d, y = [a, b, c, d] ∧ a.isDigit = true ∧ b.isDigit = true ∧
      c.isDigit = true ∧ d.isDigit = true := by
  rcases l with _ | ⟨y1, _ | ⟨y2, _ | ⟨y3, _ | ⟨y4, rest⟩⟩⟩⟩
  · simp [matchYear] at h
  · simp [matchYear] at h
  · simp [matchYear] at h
  · simp [matchYear] at h
  · simp only [matchYear] at h
    split_ifs at h with hc
    · simp only [Option.some.injEq] at h
      subst h
      simp only [Bool.and_eq_true] at hc
      exact ⟨y1, y2, y3, y4, rfl, hc.1.1.1.1, hc.1.1.1.2, hc.1.1.2, hc.1.2⟩

/-- Shapes of the three capture groups of a successful date match. -/
theorem matchDateAt_shape {l day mon yr : List Char}
    (h : matchDateAt l = some (day, mon, yr)) :
    ((∃ a, day = [a] ∧ a.isDigit = true) ∨
      (∃ a b, day = [a, b] ∧ a.isDigit = true ∧ b.isDigit = true))
    ∧ ((∃ a, mon = [a] ∧ a.isDigit = true) ∨
      (∃ a b, mon = [a, b] ∧ a.isDigit = true ∧ b.isDigit = true))
    ∧ (∃ a b c d, yr = [a, b, c, d] ∧ a.isDigit = true ∧ b.isDigit = true ∧
        c.isDigit = true ∧ d.isDigit = true) := by
  unfold matchDateAt at h
  rcases h1 : matchNN l with _ | ⟨day0, r1⟩
  · simp [h1] at h
  · simp only [h1] at h
    rcases h2 : matchNN r1 with _ | ⟨mon0, r2⟩
    · simp [h2] at h
    · simp only [h2] at h
      rcases h3 : matchYear r2 with _ | yr0
      · simp [h3] at h
      · simp only [h3, Option.some.injEq, Prod.mk.injEq] at h
        obtain ⟨hd, hm, hy⟩ := h
        subst hd
        subst hm
        subst hy
        exact ⟨matchNN_shape h1, matchNN_shape h2, matchYear_shape h3⟩

/-- Shapes of the capture groups of a successful scan. -/
theorem scanDate_shape :
    ∀ (l : List Char) (prev : Option Char) (day mon yr : List Char),
      scanDate prev l = some (day, mon, yr) →
      ((∃ a, day = [a] ∧ a.isDigit = true) ∨
        (∃ a b, day = [a, b] ∧ a.isDigit = true ∧ b.isDigit = true))
      ∧ ((∃ a, mon = [a] ∧ a.isDigit = true) ∨
        (∃ a b, mon = [a, b] ∧ a.isDigit = true ∧ b.isDigit = true))
      ∧ (∃ a b c d, yr = [a, b, c, d] ∧ a.isDigit = true ∧ b.isDigit = true ∧
          c.isDigit = true ∧ d.isDigit = true) := by
  intro l
  induction l with
  | nil =>
    intro prev day mon yr h
    cases h
  | cons c rest ih =>
    intro prev day mon yr h
    cases hb : boundPrev prev with
    | true =>
      simp only [scanDate, hb, if_true] at h
      cases hm : matchDateAt (c :: rest) with
      | some g0 =>
        rw [hm] at h
        simp only [Option.some.injEq] at h
        subst h
        exact matchDateAt_shape hm
      | none =>
        rw [hm] at h
        exact ih (some c) day mon yr h
    | false =>
      simp only [scanDate, hb] at h
      exact ih (some c) day mon yr h

/-- Evaluation of the extractor on a canonical zero-padded date string: it
matches at position 0 and returns the string unchanged. -/
theorem extract_canonical (d1 d2 m1 m2 y1 y2 y3 y4 : Char)
    (hd1 : d1.isDigit = true) (hd2 : d2.isDigit = true)
    (hm1 : m1.isDigit = true) (hm2 : m2.isDigit = true)
    (hy1 : y1.isDigit = true) (hy2 : y2.isDigit = true)
    (hy3 : y3.isDigit = true) (hy4 : y4.isDigit = true) :
    Helper.extract_date_from_description
        (String.mk [d1, d2, '/', m1, m2, '/', y1, y2, y3, y4]) =
      some (String.mk [d1, d2, '/', m1, m2, '/', y1, y2, y3, y4]) := by
  have hne : String.mk [d1, d2, '/', m1, m2, '/', y1, y2, y3, y4] ≠ "" := by
    intro hEq
    have hdata := congrArg String.data hEq
    simp at hdata
  have e1 : matchNN [d1, d2, '/', m1, m2, '/', y1, y2, y3, y4] =
      some ([d1, d2], [m1, m2, '/', y1, y2, y3, y4]) := by
    simp [matchNN, hd1, hd2]
  have e2 : matchNN [m1, m2, '/', y1, y2, y3, y4] = some ([m1, m2], [y1, y2, y3, y4]) := by
    simp [matchNN, hm1, hm2]
  have e3 : matchYear [y1, y2, y3, y4] = some [y1, y2, y3, y4] := by
    simp [matchYear, hy1, hy2, hy3, hy4]
  have hm : matchDateAt [d1, d2, '/', m1, m2, '/', y1, y2, y3, y4] =
      some ([d1, d2], [m1, m2], [y1, y2, y3, y4]) := by
    simp [matchDateAt, e1, e2, e3]
  have hscan : scanDate none [d1, d2, '/', m1, m2, '/', y1, y2, y3, y4] =
      some ([d1, d2], [m1, m2], [y1, y2, y3, y4]) := by
    simp [scanDate, boundPrev, hm]
  unfold Helper.extract_date_from_description
  rw [if_neg hne]
  rw [show String.data (String.mk [d1, d2, '/', m1, m2, '/', y1, y2, y3, y4]) =
      [d1, d2, '/', m1, m2, '/', y1, y2, y3, y4] from rfl]
  rw [hscan]
  simp [fmtDate, zfill2]

/-- C5: date extraction is idempotent: whenever extraction on t returns a
date string d, extraction on d returns d itself. -/
theorem c5_extract_date_idempotent (t d : String)
    (h : Helper.extract_date_from_description t = some d) :
    Helper.extract_date_from_description d = some d := by
  unfold Helper.extract_date_from_description at h
  by_cases ht : t = ""
  · rw [if_pos ht] at h
    cases h
  · rw [if_neg ht] at h
    rcases hg : scanDate none t.data with _ | g
    · rw [hg] at h
      cases h
    · rw [hg] at h
      obtain ⟨day, mon, yr⟩ := g
      have hd : fmtDate (day, mon, yr) = d := by simpa using h
      obtain ⟨hday, hmon, hyr⟩ := scanDate_shape t.data none day mon yr hg
      obtain ⟨w, x, y0, z, hyeq, hw, hx, hy0, hz⟩ := hyr
      subst hyeq
      subst hd
      rcases hday with ⟨a1, ha, had⟩ | ⟨a1, a2, ha, had1, had2⟩ <;>
        rcases hmon with ⟨b1, hb, hbd⟩ | ⟨b1, b2, hb, hbd1, hbd2⟩ <;>
        subst ha <;> subst hb
      · rw [show fmtDate ([a1], [b1], [w, x, y0, z]) =
            String.mk ['0', a1, '/', '0', b1, '/', w, x, y0, z] from by
          simp [fmtDate, zfill2]]
        exact extract_canonical '0' a1 '0' b1 w x y0 z (by decide) had (by decide) hbd
          hw hx hy0 hz
      · rw [show fmtDate ([a1], [b1, b2], [w, x, y0, z]) =
            String.mk ['0', a1, '/', b1, b2, '/', w, x, y0, z] from by
          simp [fmtDate, zfill2]]
        exact extract_canonical '0' a1 b1 b2 w x y0 z (by decide) had hbd1 hbd2
          hw hx hy0 hz
      · rw [show fmtDate ([a1, a2], [b1], [w, x, y0, z]) =
            String.mk [a1, a2, '/', '0', b1, '/', w, x, y0, z] from by
          simp [fmtDate, zfill2]]
        exact extract_canonical a1 a2 '0' b1 w x y0 z had1 had2 (by decide) hbd
          hw hx hy0 hz
      · rw [show fmtDate ([a1, a2], [b1, b2], [w, x, y0, z]) =
            String.mk [a1, a2, '/', b1, b2, '/', w, x, y0, z] from by
          simp [fmtDate, zfill2]]
        exact extract_canonical a1 a2 b1 b2 w x y0 z had1 had2 hbd1 hbd2
          hw hx hy0 hz

/-- Witness for C5: extraction on a text, then on its result. -/
theorem c5_extract_date_idempotent_witness :
    Helper.extract_date_from_description "Date is 3/1/2024." = some "03/01/2024"
    ∧ Helper.extract_date_from_description "03/01/2024" = some "03/01/2024" :=
  ⟨by decide, c5_extract_date_idempotent "Date is 3/1/2024." "03/01/2024" (by decide)⟩
